import Mathlib

/-!
Verification of the arithmetic expression evaluation engine in
`foundation_level/expression_calculator/expression_calculator.py`.

The translation is a shallow embedding of the Python source:

* Python floats are modelled as rational numbers (`ℚ`); every arithmetic
  operation exercised by the checked properties is exact in double precision,
  so the rational model agrees with the float model on them.
* The Python token list (a list of strings holding numeric literals, operator
  characters and parentheses) is `List String` as produced by `tokenize`.
  `evaluate_with_parentheses` splices `str(inner_result)` back into the token
  list; since `float(str(x)) == x` for every float `x` and the decimal
  rendering of a float is never a substring of `"+-*/"`, a spliced numeric
  result is modelled by the tagged alternative `Tok.v` which converts back to
  exactly the number it carries.
* Exceptions are modelled by `Except`: each `ValueError` message the source
  can raise has its own constructor, and the Python `IndexError` / `TypeError`
  that list surgery can raise on malformed inputs have constructors of their
  own (in the source they are caught by the `except IndexError` and
  `except Exception` handlers of `calculate`).
* Python's `str.isdigit` is modelled by `Char.isDigit`, which agrees with it
  on every ASCII character but rejects the non-ASCII Unicode digit characters
  (such as `'²'` or `'٣'`) that Python additionally accepts.  The model is
  therefore exact on ASCII inputs only, and every theorem about the lexer's
  accept/reject boundary on non-concrete strings carries an `asciiOnly`
  hypothesis restricting it to that faithful domain.
-/

deriving instance DecidableEq for Except

/-- Error conditions of the evaluator.  Each constructor corresponds to one
distinct exception the Python source can raise while evaluating:
`invalidCharacter c` is `ValueError(f"Invalid character: {char}")`,
`emptyExpression` is `ValueError("Empty expression")` (also used by the
`if not tokens` guard in `calculate`), `mismatchedParentheses` is
`ValueError("Mismatched parentheses")`, `divisionByZero` is
`ValueError("Division by zero")`, `invalidNumber t` is
`ValueError(f"Invalid number: {token}")`, `invalidExpression` is
`ValueError("Invalid expression")`, `indexError` is a Python `IndexError`
raised by an out-of-range `processed[i+1]` (caught by `calculate` and turned
into the message "Invalid expression format"), and `typeError` is a Python
`TypeError` raised by applying an arithmetic operator to a string operand
(caught by the generic `except Exception` handler of `calculate` and turned
into an `"Error: ..."` message). -/
inductive CalcError where
  | invalidCharacter (c : Char)
  | emptyExpression
  | mismatchedParentheses
  | divisionByZero
  | invalidNumber (t : String)
  | invalidExpression
  | indexError
  | typeError
  deriving DecidableEq

/-- The characters recognised by the `elif char in '+-*/()'` branch of
`tokenize`. -/
def opParenChars : List Char := ['+', '-', '*', '/', '(', ')']

/-- Loop body of `tokenize` (expression_calculator.py lines 14-38): scan the
characters left to right, skipping `' '`, accumulating digit/`'.'` runs into
`cur` (Python's `current_number`), flushing `cur` before each operator or
parenthesis, and rejecting any other character.  At the end of input a pending
`cur` is flushed.  Digits are read with `Char.isDigit`; this agrees with
Python's `str.isdigit` on every ASCII character but diverges beyond ASCII,
where Python also accepts non-ASCII Unicode digit characters (e.g. `'²'`,
`'٣'`) that this model rejects — so the model of the lexer is exact on ASCII
inputs and only there (see `asciiOnly`). -/
def tokenizeAux : List Char → String → List String → Except CalcError (List String)
  | [], cur, toks => .ok (if cur = "" then toks else toks ++ [cur])
  | c :: cs, cur, toks =>
    if c = ' ' then tokenizeAux cs cur toks
    else if c.isDigit ∨ c = '.' then tokenizeAux cs (cur.push c) toks
    else if c ∈ opParenChars then
      tokenizeAux cs "" ((if cur = "" then toks else toks ++ [cur]) ++ [String.singleton c])
    else .error (.invalidCharacter c)

/-- `tokenize(expression)` of the source: convert an expression string into
the list of its tokens, or fail on the first invalid character. -/
def tokenize (expression : String) : Except CalcError (List String) :=
  tokenizeAux expression.toList "" []

/-- A token as held by the list that `evaluate_with_parentheses` works on:
either an original string token from `tokenize` (`Tok.s`), or the result of a
parenthesized group spliced back in by `tokens[:i] + [str(inner_result)] +
tokens[closing_index+1:]` (`Tok.v`, carrying the numeric value whose decimal
rendering the Python list holds — `float` round-trips through `str` exactly,
and such a rendering always contains a digit, so it is never equal to `'('`
or `')'` and never a substring of `'+-*/'`). -/
inductive Tok where
  | s (t : String)
  | v (q : ℚ)
  deriving DecidableEq

/-- An element of the `processed` list of `evaluate_simple`: either an
operator-like string (one for which Python's `token in '+-*/'` substring test
is true, or a string produced by concatenating two such strings in the `+`
branch) or a float. -/
inductive Item where
  | op (t : String)
  | num (q : ℚ)
  deriving DecidableEq

/-- Whether `small` occurs as a prefix of `big` (character lists). -/
def pyStartsWith : List Char → List Char → Bool
  | [], _ => true
  | _ :: _, [] => false
  | a :: as, b :: bs => a == b && pyStartsWith as bs

/-- Whether `small` occurs as a contiguous substring of `big` (character
lists); this is Python's `small in big` for strings. -/
def pySubstring (small : List Char) : List Char → Bool
  | [] => pyStartsWith small []
  | b :: bs => pyStartsWith small (b :: bs) || pySubstring small bs

/-- Python's `token in '+-*/'` substring test. -/
def pyInOps (t : String) : Bool :=
  pySubstring t.toList "+-*/".toList

/-- Value of a list of ASCII digits read in base 10. -/
def digitsVal (cs : List Char) : ℕ :=
  cs.foldl (fun a c => 10 * a + (c.toNat - 48)) 0

/-- Python's `float(token)` on the alphabet of tokens this program produces
(strings over digits, `'.'`, the four operator characters and parentheses):
it succeeds exactly on the strings made of digits and dots that contain at
least one digit and at most one dot, and returns the denoted rational.  In
particular it fails on `"."`, on any string with two dots such as `"1.2.3"`,
and on any string containing an operator or parenthesis character. -/
def pyFloat (t : String) : Option ℚ :=
  let cs := t.toList
  if cs.any (fun c => c.isDigit) ∧ cs.all (fun c => c.isDigit || c == '.') ∧
      cs.count '.' ≤ 1 then
    let ip := cs.takeWhile (fun c => c != '.')
    let fp := (cs.dropWhile (fun c => c != '.')).drop 1
    some ((digitsVal ip : ℚ) + (digitsVal fp : ℚ) / (10 : ℚ) ^ fp.length)
  else none

/-- One step of the conversion loop of `evaluate_simple` (lines 72-80):
`if token in '+-*/': processed.append(token) else: processed.append(float(token))`,
where a failing `float` raises `Invalid number`.  A spliced numeric token
(`Tok.v`) is never a substring of `'+-*/'` and `float` recovers its value. -/
def toItem : Tok → Except CalcError Item
  | .v q => .ok (.num q)
  | .s t =>
    if pyInOps t then .ok (.op t)
    else
      match pyFloat t with
      | some q => .ok (.num q)
      | none => .error (.invalidNumber t)

/-- The whole conversion loop of `evaluate_simple`: convert every token,
stopping at the first invalid number. -/
def toItems : List Tok → Except CalcError (List Item)
  | [] => .ok []
  | t :: ts =>
    match toItem t with
    | .error e => .error e
    | .ok it =>
      match toItems ts with
      | .error e => .error e
      | .ok rest => .ok (it :: rest)

/-- Python's `processed[i-1] * processed[i+1]`: multiplying two floats
multiplies them; any operand that is a string raises `TypeError`. -/
def pyMul : Item → Item → Except CalcError Item
  | .num a, .num b => .ok (.num (a * b))
  | _, _ => .error .typeError

/-- Python's `processed[i-1] / processed[i+1]`: dividing two floats divides
them (the zero check has already been made); a string operand raises
`TypeError`. -/
def pyDiv : Item → Item → Except CalcError Item
  | .num a, .num b => .ok (.num (a / b))
  | _, _ => .error .typeError

/-- Python's `processed[i-1] + processed[i+1]`: adding two floats adds them,
adding two strings concatenates them, and a mixed pair raises `TypeError`. -/
def pyAdd : Item → Item → Except CalcError Item
  | .num a, .num b => .ok (.num (a + b))
  | .op a, .op b => .ok (.op (a ++ b))
  | _, _ => .error .typeError

/-- Python's `processed[i-1] - processed[i+1]`: subtracting two floats
subtracts them; any string operand raises `TypeError`. -/
def pySub : Item → Item → Except CalcError Item
  | .num a, .num b => .ok (.num (a - b))
  | _, _ => .error .typeError

/-- Step 1 of `evaluate_simple` (lines 82-98), the multiplicative pass, as a
zipper: `left` holds `processed[:i]` reversed and the second argument holds
`processed[i:]`, so the scan index `i` is `left.length`.  The loop body:
if `i > 0` and `processed[i]` is `'*'` or `'/'`, look up `processed[i+1]`
(raising `IndexError` past the end), for `'/'` first test
`processed[i+1] == 0` (raising `Division by zero`), combine
`processed[i-1]` with `processed[i+1]`, and splice the result over the
three-token window leaving `i` unchanged — in the zipper the result replaces
the head of `left` and the two consumed positions disappear from the right;
otherwise advance `i`.  The loop ends when `i` reaches the end of the list. -/
def mulPass : List Item → List Item → Except CalcError (List Item)
  | left, [] => .ok left.reverse
  | [], x :: right => mulPass [x] right
  | l0 :: ltail, x :: right =>
    if x = Item.op "*" then
      match right with
      | [] => .error .indexError
      | r1 :: rrest =>
        match pyMul l0 r1 with
        | .error e => .error e
        | .ok res => mulPass (res :: ltail) rrest
    else if x = Item.op "/" then
      match right with
      | [] => .error .indexError
      | r1 :: rrest =>
        if r1 = Item.num 0 then .error .divisionByZero
        else
          match pyDiv l0 r1 with
          | .error e => .error e
          | .ok res => mulPass (res :: ltail) rrest
    else mulPass (x :: l0 :: ltail) right

/-- Step 2 of `evaluate_simple` (lines 100-111), the additive pass: the same
left-to-right reduction loop applied to `'+'` and `'-'`, with no zero check. -/
def addPass : List Item → List Item → Except CalcError (List Item)
  | left, [] => .ok left.reverse
  | [], x :: right => addPass [x] right
  | l0 :: ltail, x :: right =>
    if x = Item.op "+" then
      match right with
      | [] => .error .indexError
      | r1 :: rrest =>
        match pyAdd l0 r1 with
        | .error e => .error e
        | .ok res => addPass (res :: ltail) rrest
    else if x = Item.op "-" then
      match right with
      | [] => .error .indexError
      | r1 :: rrest =>
        match pySub l0 r1 with
        | .error e => .error e
        | .ok res => addPass (res :: ltail) rrest
    else addPass (x :: l0 :: ltail) right

/-- `evaluate_simple(tokens)` of the source (lines 62-116): reject an empty
list, convert the tokens, run the multiplicative pass then the additive pass,
and require exactly one remaining element, which is returned (note the source
returns `processed[0]` whatever it is — it need not be a number). -/
def evaluate_simple (tokens : List Tok) : Except CalcError Item :=
  if tokens.isEmpty then .error .emptyExpression
  else
    match toItems tokens with
    | .error e => .error e
    | .ok processed =>
      match mulPass [] processed with
      | .error e => .error e
      | .ok p1 =>
        match addPass [] p1 with
        | .error e => .error e
        | .ok p2 =>
          match p2 with
          | [x] => .ok x
          | _ => .error .invalidExpression

/-- Loop of `find_matching_parenthesis` (lines 42-60): walk the tokens from
position `index` keeping the nesting `count`; the loop runs while tokens
remain and `count > 0`, and afterwards a nonzero `count` raises
`Mismatched parentheses` while a zero `count` returns `index - 1`. -/
def fmpAux : List Tok → ℕ → ℕ → Except CalcError ℕ
  | _, index, 0 => .ok (index - 1)
  | [], _, _ + 1 => .error .mismatchedParentheses
  | t :: rs, index, count + 1 =>
    fmpAux rs (index + 1)
      (if t = Tok.s "(" then (count + 1) + 1
       else if t = Tok.s ")" then (count + 1) - 1 else count + 1)

/-- `find_matching_parenthesis(tokens, start_index)` of the source: find the
index of the closing parenthesis matching the opening one at `start`. -/
def find_matching_parenthesis (tokens : List Tok) (start : ℕ) : Except CalcError ℕ :=
  fmpAux (tokens.drop (start + 1)) (start + 1) 1

/-- Index of the first `'('` token, as found by the
`for i, token in enumerate(tokens): if token == '(':` scan. -/
def firstOpen : List Tok → Option ℕ
  | [] => none
  | t :: ts => if t = Tok.s "(" then some 0 else (firstOpen ts).map (· + 1)

/-- Python's `str(inner_result)` as spliced back into the token list: the
decimal rendering of a float reparses to exactly the same float (and is never
an operator or parenthesis token), so a numeric result keeps its value; a
string result (which `evaluate_simple` can return, see `pyAdd`) renders as
itself. -/
def spliceTok : Item → Tok
  | .num q => .v q
  | .op t => .s t

/-- Body of `evaluate_with_parentheses` (lines 119-144), with the
`while '(' in tokens` loop and the recursion on the inner group both driven
by explicit fuel: each splice and each inner group is strictly shorter than
the token list in hand, so `tokens.length + 1` units of fuel (as supplied by
`evaluate_with_parentheses`) always suffice — see `ewpAux_fuel_eq` — and the
fuel-exhausted branch (which merely stops the loop early) is never taken.
One fuel step: if a `'('` exists, find the first one, find its matching
`')'` (propagating `Mismatched parentheses`), evaluate the tokens strictly
between them recursively, splice the rendered result over the whole group,
and restart the scan; once no `'('` remains, delegate to
`evaluate_simple`. -/
def ewpAux : ℕ → List Tok → Except CalcError Item
  | 0, tokens => evaluate_simple tokens
  | fuel + 1, tokens =>
    match firstOpen tokens with
    | none => evaluate_simple tokens
    | some i =>
      match find_matching_parenthesis tokens i with
      | .error e => .error e
      | .ok closing =>
        match ewpAux fuel ((tokens.take closing).drop (i + 1)) with
        | .error e => .error e
        | .ok innerResult =>
          ewpAux fuel (tokens.take i ++ [spliceTok innerResult] ++ tokens.drop (closing + 1))

/-- `evaluate_with_parentheses(tokens)` of the source. -/
def evaluate_with_parentheses (tokens : List Tok) : Except CalcError Item :=
  ewpAux (tokens.length + 1) tokens

/-- Result of `calculate(expression)` (lines 147-168): the Python function
returns a pair `(result, error)`; `okNum` is a numeric result, `okStr` is a
non-numeric result (the source can return one, since `evaluate_simple`
returns `processed[0]` unchecked), and `err e` is `(None, message)` where the
message is determined by `e` (the `ValueError` text, `"Invalid expression
format"` for an `IndexError`, or the generic `"Error: ..."` for any other
exception). -/
inductive CalcOutcome where
  | okNum (q : ℚ)
  | okStr (t : String)
  | err (e : CalcError)
  deriving DecidableEq

/-- `calculate(expression)` of the source: tokenize, reject an empty token
list, resolve parentheses and evaluate; every exception raised underneath is
caught and returned as an error value. -/
def calculate (expression : String) : CalcOutcome :=
  match tokenize expression with
  | .error e => .err e
  | .ok tokens =>
    if tokens.isEmpty then .err .emptyExpression
    else
      match evaluate_with_parentheses (tokens.map Tok.s) with
      | .ok (.num q) => .okNum q
      | .ok (.op t) => .okStr t
      | .error e => .err e

/-- The five error kinds of the specification's error taxonomy (spec §7). -/
inductive ErrKind where
  | invalidCharacter
  | emptyExpression
  | unbalancedParentheses
  | divisionByZero
  | malformedExpression
  deriving DecidableEq

/-- Modelled from the spec: the map from the errors the code produces to the
five kinds of the spec's taxonomy (§7).  The three messages
`Invalid number` / `Invalid expression` / `Invalid expression format` all
fall under `MalformedExpression` (the table's "not exactly one Number,
e.g. two numbers with no operator, dangling operator, malformed numeric
literal"); the `TypeError` caught by the generic `except Exception` handler
has no kind in the taxonomy — it is exactly the untagged catch-all the spec
prohibits. -/
def kindOf : CalcError → Option ErrKind
  | .invalidCharacter _ => some .invalidCharacter
  | .emptyExpression => some .emptyExpression
  | .mismatchedParentheses => some .unbalancedParentheses
  | .divisionByZero => some .divisionByZero
  | .invalidNumber _ => some .malformedExpression
  | .invalidExpression => some .malformedExpression
  | .indexError => some .malformedExpression
  | .typeError => none

/-- Every character the model's lexer accepts: the union of the branch
conditions of `tokenizeAux` that do not raise (space, digit, dot, operator or
parenthesis).  Note the set contains the space but not the tab: only
`char == ' '` is skipped by the source.  On the ASCII range this is exactly
the set of characters the source lexer accepts; beyond ASCII the source also
accepts Python's non-ASCII Unicode digits, which `Char.isDigit` (and hence
this set) excludes, so statements built on this set are restricted to ASCII
inputs. -/
def legalChar (c : Char) : Prop :=
  c = ' ' ∨ c.isDigit ∨ c = '.' ∨ c ∈ opParenChars

instance : DecidablePred legalChar := fun c =>
  decidable_of_iff (c = ' ' ∨ c.isDigit ∨ c = '.' ∨ c ∈ opParenChars) Iff.rfl

/-- Whether a string lies in the ASCII range, the domain on which
`Char.isDigit` coincides with Python's `str.isdigit` and the model of the
lexer is exact.  Statements about the lexer's accept/reject boundary on
arbitrary (non-concrete) inputs are restricted to such strings. -/
def asciiOnly (s : String) : Prop :=
  ∀ c ∈ s.toList, c.toNat < 128

instance : DecidablePred asciiOnly := fun s =>
  decidable_of_iff (∀ c ∈ s.toList, c.toNat < 128) Iff.rfl

lemma tokenizeAux_ok_iff (cs : List Char) :
    ∀ (cur : String) (toks : List String),
      (∃ r, tokenizeAux cs cur toks = Except.ok r) ↔ ∀ c ∈ cs, legalChar c := by
  induction cs with
  | nil =>
    intro cur toks
    simp [tokenizeAux]
  | cons c cs ih =>
    intro cur toks
    by_cases h1 : c = ' '
    · simp [tokenizeAux, h1, ih, legalChar]
    · by_cases h2 : c.isDigit ∨ c = '.'
      · have hl : legalChar c := Or.inr (by tauto)
        simp [tokenizeAux, h1, h2, ih, hl]
      · by_cases h3 : c ∈ opParenChars
        · have hl : legalChar c := Or.inr (Or.inr (Or.inr h3))
          simp [tokenizeAux, h1, h2, h3, ih, hl]
        · have hl : ¬ legalChar c := by
            simp only [legalChar]
            push_neg
            exact ⟨h1, by tauto, by tauto, h3⟩
          simp [tokenizeAux, h1, h2, h3, hl]

lemma tokenizeAux_error_char (cs : List Char) :
    ∀ (cur : String) (toks : List String) (e : CalcError),
      tokenizeAux cs cur toks = Except.error e →
      ∃ c ∈ cs, e = CalcError.invalidCharacter c ∧ ¬ legalChar c := by
  induction cs with
  | nil =>
    intro cur toks e h
    simp [tokenizeAux] at h
  | cons c cs ih =>
    intro cur toks e h
    by_cases h1 : c = ' '
    · rw [tokenizeAux, if_pos h1] at h
      obtain ⟨c', hm, he⟩ := ih _ _ _ h
      exact ⟨c', List.mem_cons_of_mem _ hm, he⟩
    · by_cases h2 : c.isDigit ∨ c = '.'
      · rw [tokenizeAux, if_neg h1, if_pos h2] at h
        obtain ⟨c', hm, he⟩ := ih _ _ _ h
        exact ⟨c', List.mem_cons_of_mem _ hm, he⟩
      · by_cases h3 : c ∈ opParenChars
        · rw [tokenizeAux, if_neg h1, if_neg h2, if_pos h3] at h
          obtain ⟨c', hm, he⟩ := ih _ _ _ h
          exact ⟨c', List.mem_cons_of_mem _ hm, he⟩
        · rw [tokenizeAux, if_neg h1, if_neg h2, if_neg h3] at h
          refine ⟨c, List.mem_cons_self c cs, ?_, ?_⟩
          · cases h
            rfl
          · simp only [legalChar]
            push_neg
            exact ⟨h1, by tauto, by tauto, h3⟩

lemma fmpAux_error_eq (rest : List Tok) :
    ∀ (index count : ℕ) (e : CalcError),
      fmpAux rest index count = Except.error e → e = CalcError.mismatchedParentheses := by
  induction rest with
  | nil =>
    intro index count e h
    cases count with
    | zero => rw [fmpAux] at h; cases h
    | succ n => rw [fmpAux] at h; cases h; rfl
  | cons t rs ih =>
    intro index count e h
    cases count with
    | zero => rw [fmpAux] at h; cases h
    | succ n => rw [fmpAux] at h; exact ih _ _ _ h

lemma fmpAux_ok_bounds (rest : List Tok) :
    ∀ (index count r : ℕ), count ≠ 0 → fmpAux rest index count = Except.ok r →
      index ≤ r ∧ r < index + rest.length := by
  induction rest with
  | nil =>
    intro index count r hc h
    cases count with
    | zero => exact absurd rfl hc
    | succ n => rw [fmpAux] at h; cases h
  | cons t rs ih =>
    intro index count r hc h
    cases count with
    | zero => exact absurd rfl hc
    | succ n =>
      rw [fmpAux] at h
      by_cases hc' :
          (if t = Tok.s "(" then (n + 1) + 1
           else if t = Tok.s ")" then (n + 1) - 1 else n + 1) = 0
      · rw [hc', fmpAux] at h
        cases h
        simp only [List.length_cons]
        omega
      · have := ih (index + 1) _ r hc' h
        simp only [List.length_cons]
        omega

/-- When `find_matching_parenthesis` succeeds, the returned index is strictly
after `start` and strictly inside the list: the span it brackets is nonempty
and the splice over it strictly shrinks the token list. -/
lemma find_matching_parenthesis_ok_bounds (tokens : List Tok) (start r : ℕ)
    (h : find_matching_parenthesis tokens start = Except.ok r) :
    start + 1 ≤ r ∧ r < tokens.length := by
  have := fmpAux_ok_bounds (tokens.drop (start + 1)) (start + 1) 1 r (by omega) h
  rw [List.length_drop] at this
  omega

lemma firstOpen_lt_length (ts : List Tok) :
    ∀ i, firstOpen ts = some i → i < ts.length := by
  induction ts with
  | nil => intro i h; cases h
  | cons t ts ih =>
    intro i h
    by_cases ht : t = Tok.s "("
    · rw [firstOpen, if_pos ht] at h
      cases h
      simp
    · rw [firstOpen, if_neg ht] at h
      obtain ⟨j, hj, rfl⟩ := Option.map_eq_some'.mp h
      have := ih j hj
      simp only [List.length_cons]
      omega

lemma firstOpen_leftmost (ts : List Tok) :
    ∀ i, firstOpen ts = some i → ∀ j, j < i → ts[j]? ≠ some (Tok.s "(") := by
  induction ts with
  | nil => intro i h; cases h
  | cons t ts ih =>
    intro i h j hj
    by_cases ht : t = Tok.s "("
    · rw [firstOpen, if_pos ht] at h
      cases h
      omega
    · rw [firstOpen, if_neg ht] at h
      obtain ⟨k, hk, rfl⟩ := Option.map_eq_some'.mp h
      match j with
      | 0 =>
        simp only [List.getElem?_cons_zero]
        intro hcontra
        exact ht (Option.some.inj hcontra)
      | j' + 1 =>
        rw [List.getElem?_cons_succ]
        exact ih k hk j' (by omega)

lemma firstOpen_eq_none (ts : List Tok) (h : Tok.s "(" ∉ ts) : firstOpen ts = none := by
  induction ts with
  | nil => rfl
  | cons t ts ih =>
    have ht : t ≠ Tok.s "(" := fun he => h (he ▸ List.mem_cons_self t ts)
    have hts : Tok.s "(" ∉ ts := fun hm => h (List.mem_cons_of_mem t hm)
    rw [firstOpen, if_neg ht, ih hts]
    rfl

/-- The fuel supplied to `ewpAux` is irrelevant as long as it exceeds the
length of the token list: the loop and the recursion both strictly shrink the
list, so `evaluate_with_parentheses`'s `tokens.length + 1` never runs out and
the model computes exactly the source's (terminating) recursion. -/
lemma ewpAux_fuel_eq (f : ℕ) :
    ∀ (g : ℕ) (tokens : List Tok), tokens.length < f → tokens.length < g →
      ewpAux f tokens = ewpAux g tokens := by
  induction f using Nat.strong_induction_on with
  | _ f ihf =>
    intro g tokens hf hg
    obtain ⟨f', rfl⟩ : ∃ f', f = f' + 1 := ⟨f - 1, by omega⟩
    obtain ⟨g', rfl⟩ : ∃ g', g = g' + 1 := ⟨g - 1, by omega⟩
    rw [ewpAux, ewpAux]
    rcases ho : firstOpen tokens with _ | i <;> simp only [ho]
    have hi := firstOpen_lt_length tokens i ho
    rcases hm : find_matching_parenthesis tokens i with e | closing <;> simp only [hm]
    have hb := find_matching_parenthesis_ok_bounds tokens i closing hm
    have hinner : ((tokens.take closing).drop (i + 1)).length < tokens.length := by
      rw [List.length_drop, List.length_take]
      omega
    rw [ihf f' (by omega) g' _ (by omega) (by omega)]
    rcases hI : ewpAux g' ((tokens.take closing).drop (i + 1)) with e | r <;> simp only [hI]
    have hspl :
        (tokens.take i ++ [spliceTok r] ++ tokens.drop (closing + 1)).length <
          tokens.length := by
      simp only [List.length_append, List.length_take, List.length_drop,
        List.length_cons, List.length_nil]
      omega
    exact ihf f' (by omega) g' _ (by omega) (by omega)

/-- `evaluate_with_parentheses` satisfies the source's own recursion: resolve
the first parenthesized group (inner groups handled by the same function) and
restart, or hand the group-free list to `evaluate_simple`. -/
theorem evaluate_with_parentheses_eq (tokens : List Tok) :
    evaluate_with_parentheses tokens =
      match firstOpen tokens with
      | none => evaluate_simple tokens
      | some i =>
        match find_matching_parenthesis tokens i with
        | .error e => .error e
        | .ok closing =>
          match evaluate_with_parentheses ((tokens.take closing).drop (i + 1)) with
          | .error e => .error e
          | .ok innerResult =>
            evaluate_with_parentheses
              (tokens.take i ++ [spliceTok innerResult] ++ tokens.drop (closing + 1)) := by
  rw [evaluate_with_parentheses, ewpAux]
  rcases ho : firstOpen tokens with _ | i <;> simp only [ho]
  have hi := firstOpen_lt_length tokens i ho
  rcases hm : find_matching_parenthesis tokens i with e | closing <;> simp only [hm]
  have hb := find_matching_parenthesis_ok_bounds tokens i closing hm
  have hinner : ((tokens.take closing).drop (i + 1)).length < tokens.length := by
    rw [List.length_drop, List.length_take]
    omega
  have hmain :
      evaluate_with_parentheses ((tokens.take closing).drop (i + 1)) =
        ewpAux tokens.length ((tokens.take closing).drop (i + 1)) := by
    rw [evaluate_with_parentheses]
    exact ewpAux_fuel_eq _ _ _ (by omega) hinner
  rw [hmain]
  rcases hI : ewpAux tokens.length ((tokens.take closing).drop (i + 1)) with e | r <;>
    simp only [hI]
  have hspl :
      (tokens.take i ++ [spliceTok r] ++ tokens.drop (closing + 1)).length <
        tokens.length := by
    simp only [List.length_append, List.length_take, List.length_drop,
      List.length_cons, List.length_nil]
    omega
  rw [evaluate_with_parentheses]
  exact ewpAux_fuel_eq _ _ _ hspl (by omega)
/-- Claim C1: multiplicative operators bind tighter than additive ones — the
Precedence Evaluator reduces all `*` and `/` applications (its first pass)
before any `+` or `-` application (its second pass), so for the input
`"5 + 3 * 2"` the evaluator returns `11.0` and not `16.0`. -/
theorem claim_C1 :
    calculate "5 + 3 * 2" = CalcOutcome.okNum 11 ∧
    calculate "5 + 3 * 2" ≠ CalcOutcome.okNum 16 := by
  with_unfolding_all decide

/-- Claim C2: operators of equal precedence associate left-to-right — for
every multiplicative chain `a / b * c` (with the division defined) the
multiplicative pass computes `(a / b) * c`, and for the input
`"20 / 4 / 5"` the evaluator returns `1.0` and not `25.0`. -/
theorem claim_C2 (a b c : ℚ) (hb : b ≠ 0) :
    mulPass [] [Item.num a, Item.op "/", Item.num b, Item.op "*", Item.num c] =
      Except.ok [Item.num (a / b * c)] ∧
    calculate "20 / 4 / 5" = CalcOutcome.okNum 1 := by
  constructor
  · simp [mulPass, pyDiv, pyMul, hb]
  · with_unfolding_all decide

/-- Claim C2 witness: the associativity statement instantiated at
`20 / 4 * 5`, together with the concrete evaluation. -/
theorem claim_C2_witness :
    mulPass [] [Item.num 20, Item.op "/", Item.num 4, Item.op "*", Item.num 5] =
      Except.ok [Item.num (20 / 4 * 5)] ∧
    calculate "20 / 4 / 5" = CalcOutcome.okNum 1 :=
  claim_C2 20 4 5 (by norm_num)

/-- Claim C3: parenthesized groups are resolved inner-to-outer and, at equal
nesting depth, leftmost first — the resolver always picks the first `(` of
the stream (no earlier position holds one), and the two reference inputs
evaluate to `16.0` and `14.0`. -/
theorem claim_C3 :
    (∀ (ts : List Tok) (i : ℕ), firstOpen ts = some i →
        ∀ j, j < i → ts[j]? ≠ some (Tok.s "(")) ∧
    calculate "(5 + 3) * 2" = CalcOutcome.okNum 16 ∧
    calculate "((5 + 3) * 2) - 10 / 5" = CalcOutcome.okNum 14 := by
  refine ⟨firstOpen_leftmost, ?_, ?_⟩ <;> with_unfolding_all decide

/-- Claim C3 witness: the leftmost-scan statement instantiated at a concrete
stream whose first `(` is at position 1. -/
theorem claim_C3_witness :
    ([Tok.s "5", Tok.s "("] : List Tok)[0]? ≠ some (Tok.s "(") :=
  claim_C3.1 [Tok.s "5", Tok.s "("] 1 (by with_unfolding_all decide) 0 (by omega)

/-- Claim C4: a division whose right-hand operand is exactly zero fails with
the division-by-zero error before the three-token window is replaced —
whenever the multiplicative pass faces `/` with a left operand present and a
zero right operand it errors immediately, whatever follows — and evaluating
`"15 / 3 + 2 / 0"` fails with that error (no infinity, no crash). -/
theorem claim_C4 :
    (∀ (l0 : Item) (lt rest : List Item),
        mulPass (l0 :: lt) (Item.op "/" :: Item.num 0 :: rest) =
          Except.error CalcError.divisionByZero) ∧
    calculate "15 / 3 + 2 / 0" = CalcOutcome.err CalcError.divisionByZero := by
  constructor
  · intro l0 lt rest
    simp [mulPass]
  · with_unfolding_all decide

/-- Claim C5 counterexample: the claim includes the tab in the accepted
character set ("tab, treated as skippable whitespace"), but the lexer only
skips `' '` and rejects a tab with `InvalidCharacter`. -/
theorem claim_C5_counterexample :
    tokenize "\t" = Except.error (CalcError.invalidCharacter '\t') := by
  with_unfolding_all decide

/-- Claim C5 as amended: for every ASCII input string, the lexer succeeds
exactly when every character of the input is a digit `0`-`9`, `'.'`, one of
`+ - * / ( )`, or a space — the tab is excluded, it is rejected like any
other character outside the set — and any failure is an `InvalidCharacter`
error naming a character of the input outside that set.  (The restriction to
ASCII is required by the source itself: Python's `str.isdigit` also accepts
non-ASCII Unicode digit characters such as `'²'`, so beyond ASCII the source
lexer accepts characters outside any fixed ASCII alphabet.) -/
theorem claim_C5_amended (s : String) (hs : asciiOnly s) :
    ((∃ ts, tokenize s = Except.ok ts) ↔ ∀ c ∈ s.toList, legalChar c) ∧
    (∀ e, tokenize s = Except.error e →
      ∃ c ∈ s.toList, e = CalcError.invalidCharacter c ∧ ¬ legalChar c) :=
  ⟨tokenizeAux_ok_iff s.toList "" [],
    fun e he => tokenizeAux_error_char s.toList "" [] e he⟩

/-- Claim C5 witness: the amended claim applied to the (ASCII) input `"\t"`,
whose tokenization fails on the (illegal) tab character. -/
theorem claim_C5_witness :
    ∃ c ∈ ("\t" : String).toList,
      CalcError.invalidCharacter '\t' = CalcError.invalidCharacter c ∧ ¬ legalChar c :=
  (claim_C5_amended "\t" (by with_unfolding_all decide)).2
    (CalcError.invalidCharacter '\t') (by with_unfolding_all decide)

/-- Claim C6 counterexample: a `)` with no matching `(` does not produce the
unbalanced-parentheses error — `calculate ")"` surfaces the close parenthesis
to the number parser and fails with `Invalid number: )` instead. -/
theorem claim_C6_counterexample :
    calculate ")" = CalcOutcome.err (CalcError.invalidNumber ")") ∧
    CalcError.invalidNumber ")" ≠ CalcError.mismatchedParentheses := by
  with_unfolding_all decide

/-- Claim C6 as amended: an `Open` whose scan finds no matching `Close`
aborts with the unbalanced-parentheses error — it is the only error
`find_matching_parenthesis` can produce, and `"(5 + 3"` fails with it — but a
`Close` with no matching `Open` is not detected by the resolver (it flows to
the evaluator, see the counterexample). -/
theorem claim_C6_amended :
    (∀ (tokens : List Tok) (start : ℕ) (e : CalcError),
        find_matching_parenthesis tokens start = Except.error e →
          e = CalcError.mismatchedParentheses) ∧
    calculate "(5 + 3" = CalcOutcome.err CalcError.mismatchedParentheses := by
  constructor
  · intro tokens start e h
    exact fmpAux_error_eq _ _ _ _ h
  · with_unfolding_all decide

/-- Claim C6 witness: the amended claim applied to the stream `["("]`, whose
matching scan runs off the end of the list. -/
theorem claim_C6_witness :
    CalcError.mismatchedParentheses = CalcError.mismatchedParentheses ∧
    calculate "(5 + 3" = CalcOutcome.err CalcError.mismatchedParentheses :=
  ⟨claim_C6_amended.1 [Tok.s "("] 0 CalcError.mismatchedParentheses
      (by with_unfolding_all decide),
    claim_C6_amended.2⟩

/-- Claim C7 counterexample: the parenthesis-free token sequence of `"+++"`
does not reduce to a single `Number` — the additive pass concatenates the
operator strings — yet the evaluator does not fail with the malformed
expression error: `calculate` succeeds and returns the string `"++"`. -/
theorem claim_C7_counterexample :
    calculate "+++" = CalcOutcome.okStr "++" := by
  with_unfolding_all decide

/-- Claim C7 as amended: the malformed shapes the claim lists each fail with
an error of the `MalformedExpression` kind — two numbers with no operator
between them (`"(2)(3)"`), a leading operator (`"-5"`), a trailing operator
with a missing operand (`"5 +"`, surfaced through the `IndexError` path), and
a numeric literal with two decimal points (`"1.2.3"`) — but not every
non-reducing sequence does: adjacent `+` operators reduce by string
concatenation and succeed (see the counterexample), and other adjacent
operators (`"5 * * 3"`) raise a `TypeError` that has no kind in the
taxonomy. -/
theorem claim_C7_amended :
    calculate "(2)(3)" = CalcOutcome.err CalcError.invalidExpression ∧
    calculate "-5" = CalcOutcome.err CalcError.invalidExpression ∧
    calculate "5 +" = CalcOutcome.err CalcError.indexError ∧
    calculate "1.2.3" = CalcOutcome.err (CalcError.invalidNumber "1.2.3") ∧
    kindOf CalcError.invalidExpression = some ErrKind.malformedExpression ∧
    kindOf CalcError.indexError = some ErrKind.malformedExpression ∧
    kindOf (CalcError.invalidNumber "1.2.3") = some ErrKind.malformedExpression ∧
    calculate "5 * * 3" = CalcOutcome.err CalcError.typeError ∧
    kindOf CalcError.typeError = none := by
  with_unfolding_all decide

/-- Claim C8 counterexample: the stream the resolver hands to the Precedence
Evaluator can contain a `Close` token — on the stream of input `")"` the
resolver's scan finds no `Open`, so it delegates that very stream, `)`
included, and the evaluator's number parser reports it. -/
theorem claim_C8_counterexample :
    firstOpen [Tok.s ")"] = none ∧
    evaluate_with_parentheses [Tok.s ")"] = evaluate_simple [Tok.s ")"] ∧
    Tok.s ")" ∈ [Tok.s ")"] ∧
    calculate ")" = CalcOutcome.err (CalcError.invalidNumber ")") := by
  with_unfolding_all decide

/-- Claim C8 as amended: the Parenthesis Resolver delegates to the Precedence
Evaluator exactly the streams containing no `Open` token (it loops while one
remains), but an unmatched `Close` token may survive into the delegated
stream. -/
theorem claim_C8_amended (tokens : List Tok) (h : Tok.s "(" ∉ tokens) :
    evaluate_with_parentheses tokens = evaluate_simple tokens := by
  rw [evaluate_with_parentheses, ewpAux, firstOpen_eq_none tokens h]

/-- Claim C8 witness: the amended claim applied to a one-number stream. -/
theorem claim_C8_witness :
    evaluate_with_parentheses [Tok.v 7] = evaluate_simple [Tok.v 7] :=
  claim_C8_amended [Tok.v 7] (by with_unfolding_all decide)

/-- Claim C9 counterexample: not every failing input maps to one of the five
error kinds of the taxonomy — `"5 * * 3"` applies `*` to an operator string,
raising a `TypeError` that only the generic `except Exception` catch-all
handler of `calculate` reports, and that error has no kind. -/
theorem claim_C9_counterexample :
    calculate "5 * * 3" = CalcOutcome.err CalcError.typeError ∧
    kindOf CalcError.typeError = none := by
  with_unfolding_all decide

/-- Claim C9 as amended: `calculate` always returns a value (every exception
is caught), and every error it returns other than the `TypeError` swallowed
by the generic catch-all handler maps to exactly one of the five kinds of the
taxonomy. -/
theorem claim_C9_amended (s : String) (e : CalcError)
    (h : calculate s = CalcOutcome.err e) (hne : e ≠ CalcError.typeError) :
    ∃ k, kindOf e = some k := by
  cases e
  case typeError => exact absurd rfl hne
  all_goals exact ⟨_, rfl⟩

/-- Claim C9 witness: the amended claim applied to the failing input `"5 +"`,
whose `IndexError` maps to the `MalformedExpression` kind. -/
theorem claim_C9_witness : ∃ k, kindOf CalcError.indexError = some k :=
  claim_C9_amended "5 +" CalcError.indexError (by with_unfolding_all decide)
    (by decide)

/-- Claim C10: a parenthesized group that evaluates to a negative number is
spliced back as a single token whose reparse yields that very number (never a
subtraction operator), so `calculate "(2 - 5) * 3"` succeeds and returns
`-9.0`. -/
theorem claim_C10 :
    (∀ q : ℚ, toItem (Tok.v q) = Except.ok (Item.num q)) ∧
    calculate "(2 - 5) * 3" = CalcOutcome.okNum (-9) :=
  ⟨fun _ => rfl, by with_unfolding_all decide⟩
